import Mathlib

/-!
Verification of the `smartapizc` historical-data layer
(`smartapizc/history/base.py` and `smartapizc/history/core.py`).

The embedding follows the Python source:

* Python `dt.date` values are modelled by `PyDate` (year, month, day)
  and `dt.datetime` values by `PyDateTime` (plus hour, minute, second);
  the two kinds stay distinct because CPython's subtraction does:
  `datetime - datetime` and `date - date` yield a `timedelta`, while a
  mixed `datetime`/`date` subtraction raises `TypeError`.  Sub-second
  precision is irrelevant to the pattern used and is not modelled.
* The single `strftime`/`strptime` pattern the library ever uses,
  `"%Y-%m-%d %H:%M"` (passed by `GetHistoricalData.get`), is embedded as
  `formatYmdHM` / `parseYmdHM`.  `strftime` zero-pads `%m %d %H %M` to
  two digits but renders `%Y` as a plain unpadded decimal (so years
  below 1000 come out with fewer than four digits), while `strptime`
  requires exactly four digits for `%Y`; CPython years are `1..9999`.
* Python exceptions become the `Err` type: `Err.assertionError` for a
  failed `assert` (the spec's "ConfigurationError" and the
  range-too-large error), `Err.valueError` for `ValueError`,
  `Err.typeError` for the `TypeError` of a mixed subtraction,
  `Err.keyError` for a dictionary `KeyError`.
* The dynamically typed `fromdate`/`todate` arguments become the
  `Boundary` sum: a `dt.date`, a `dt.datetime`, a string, or any other
  shape (the `else: raise ValueError` branch).
* The network client is explicit state: `Client` holds the stub
  response function and `ClientState` counts `getCandleData` calls.
-/

/-- A Python `datetime.date` value.  CPython restricts years to
`1..9999`. -/
structure PyDate where
  year : Nat
  month : Nat
  day : Nat
deriving DecidableEq, Repr

/-- A Python `datetime.datetime` value. -/
structure PyDateTime where
  year : Nat
  month : Nat
  day : Nat
  hour : Nat
  minute : Nat
  sec : Nat
deriving DecidableEq, Repr

/-- Leap-year test, as in CPython's `datetime` module. -/
def isleap (y : Nat) : Bool :=
  y % 4 == 0 && (y % 100 != 0 || y % 400 == 0)

/-- Days in a month, as in CPython's `datetime` module. -/
def daysInMonth (y m : Nat) : Nat :=
  if m = 2 then (if isleap y then 29 else 28)
  else if m = 4 ∨ m = 6 ∨ m = 9 ∨ m = 11 then 30
  else 31

/-- Days in the years before year `y` (CPython `_days_before_year`). -/
def daysBeforeYear (y : Nat) : Nat :=
  (y - 1) * 365 + (y - 1) / 4 - (y - 1) / 100 + (y - 1) / 400

/-- Days in year `y` before the first of month `m`
(CPython `_days_before_month`). -/
def daysBeforeMonth (y m : Nat) : Nat :=
  (match m with
   | 1 => 0 | 2 => 31 | 3 => 59 | 4 => 90 | 5 => 120 | 6 => 151
   | 7 => 181 | 8 => 212 | 9 => 243 | 10 => 273 | 11 => 304 | _ => 334)
  + (if 2 < m ∧ isleap y then 1 else 0)

/-- Proleptic-Gregorian ordinal of the date, day 1 being 0001-01-01
(CPython `date.toordinal`). -/
def toOrdinal (d : PyDate) : Nat :=
  daysBeforeYear d.year + daysBeforeMonth d.year d.month + d.day

/-- Absolute position of a datetime value in seconds; differences of
this quantity are what `(a - b).total_seconds()` returns for two
datetimes. -/
def toSeconds (d : PyDateTime) : Int :=
  (toOrdinal ⟨d.year, d.month, d.day⟩ : Int) * 86400 +
    d.hour * 3600 + d.minute * 60 + d.sec

/-- A date's `timetuple` has hour and minute zero, which is what
`date.strftime` renders for `%H:%M`. -/
def PyDate.atMidnight (d : PyDate) : PyDateTime :=
  ⟨d.year, d.month, d.day, 0, 0, 0⟩

/-- The in-range requirements CPython's `datetime` constructor enforces,
restricted to the fields the pattern `"%Y-%m-%d %H:%M"` renders. -/
def PyDateTime.Valid (d : PyDateTime) : Prop :=
  1 ≤ d.year ∧ d.year ≤ 9999 ∧ 1 ≤ d.month ∧ d.month ≤ 12 ∧
  1 ≤ d.day ∧ d.day ≤ daysInMonth d.year d.month ∧
  d.hour ≤ 23 ∧ d.minute ≤ 59 ∧ d.sec ≤ 59

instance (d : PyDateTime) : Decidable d.Valid := by
  unfold PyDateTime.Valid; infer_instance

/-- The decimal digit character for `k < 10`. -/
def digitChar (k : Nat) : Char := Char.ofNat (48 + k)

/-- `strftime` rendering of `%Y`: a plain unpadded decimal (years
below 1000 produce fewer than four digits).  CPython years are capped
at 9999, so four digits always suffice on the embedding's domain. -/
def yearChars (y : Nat) : List Char :=
  if y < 10 then [digitChar (y % 10)]
  else if y < 100 then [digitChar (y / 10 % 10), digitChar (y % 10)]
  else if y < 1000 then
    [digitChar (y / 100 % 10), digitChar (y / 10 % 10), digitChar (y % 10)]
  else
    [digitChar (y / 1000 % 10), digitChar (y / 100 % 10),
     digitChar (y / 10 % 10), digitChar (y % 10)]

/-- `strftime` with the pattern `"%Y-%m-%d %H:%M"`: unpadded year,
zero-padded two-digit month, day, hour and minute. -/
def formatYmdHM (d : PyDateTime) : String :=
  ⟨yearChars d.year ++
   ['-', digitChar (d.month / 10 % 10), digitChar (d.month % 10), '-',
    digitChar (d.day / 10 % 10), digitChar (d.day % 10), ' ',
    digitChar (d.hour / 10 % 10), digitChar (d.hour % 10), ':',
    digitChar (d.minute / 10 % 10), digitChar (d.minute % 10)]⟩

/-- The numeric value of a decimal digit character, `none` otherwise. -/
def charToDigit (c : Char) : Option Nat :=
  if c.isDigit then some (c.toNat - 48) else none

/-- Two decimal digit characters as a number below 100. -/
def digits2 (a b : Char) : Option Nat :=
  (charToDigit a).bind fun x => (charToDigit b).map fun y => x * 10 + y

/-- Four decimal digit characters as a number below 10000. -/
def digits4 (a b c d : Char) : Option Nat :=
  (digits2 a b).bind fun x => (digits2 c d).map fun y => x * 100 + y

/-- Field decoding for `strptime` with `"%Y-%m-%d %H:%M"`: check the
separator characters, decode the digit groups, and enforce the field
ranges CPython's `datetime` constructor enforces; the parsed value
carries `sec = 0` since the pattern stops at minutes. -/
def parseFields (y1 y2 y3 y4 c1 m1 m2 c2 d1 d2 c3 h1 h2 c4 n1 n2 : Char) :
    Option PyDateTime :=
  if c1 = '-' ∧ c2 = '-' ∧ c3 = ' ' ∧ c4 = ':' then
    match digits4 y1 y2 y3 y4, digits2 m1 m2, digits2 d1 d2,
          digits2 h1 h2, digits2 n1 n2 with
    | some y, some mo, some da, some ho, some mi =>
      if 1 ≤ y ∧ 1 ≤ mo ∧ mo ≤ 12 ∧ 1 ≤ da ∧ da ≤ daysInMonth y mo ∧
         ho ≤ 23 ∧ mi ≤ 59
      then some ⟨y, mo, da, ho, mi, 0⟩ else none
    | _, _, _, _, _ => none
  else none

/-- `strptime` with the pattern `"%Y-%m-%d %H:%M"`: `%Y` requires
exactly four digits (CPython `_strptime` uses a four-digit regex for
it), so a string shorter or longer than the canonical sixteen
characters fails. -/
def parseYmdHM (s : String) : Option PyDateTime :=
  match s.data with
  | [y1, y2, y3, y4, c1, m1, m2, c2, d1, d2, c3, h1, h2, c4, n1, n2] =>
    parseFields y1 y2 y3 y4 c1 m1 m2 c2 d1 d2 c3 h1 h2 c4 n1 n2
  | _ => none

deriving instance DecidableEq for Except

/-- Python exceptions raised by the embedded code: a failed `assert`
(which the spec's taxonomy calls `ConfigurationError` when raised by
`assertvalues`, and Range-too-large when raised by the span check),
a `ValueError`, the `TypeError` of a mixed date/datetime subtraction,
and a dictionary `KeyError`. -/
inductive Err where
  | assertionError (msg : String)
  | valueError (msg : String)
  | typeError (msg : String)
  | keyError (key : String)
deriving DecidableEq, Repr

/-- The comparison value `asserttimeperiod` works with after the
isinstance branches: a plain `dt.date` kept as-is, or a `dt.datetime`
(either kept as-is or produced by `strptime` from a string). -/
inductive DateOrDateTime where
  | date (d : PyDate)
  | datetime (d : PyDateTime)
deriving DecidableEq, Repr

/-- The dynamically typed `fromdate` / `todate` argument: a `dt.date`,
a `dt.datetime`, a string, or a value of any other type (the shape
rejected by the final `else: raise ValueError` branch). -/
inductive Boundary where
  | date (d : PyDate)
  | datetime (d : PyDateTime)
  | str (s : String)
  | other
deriving DecidableEq, Repr

/-- The message of the `TypeError` CPython raises on an unsupported
subtraction. -/
def typeErrMsg (l r : String) : String :=
  "unsupported operand type(s) for -: " ++ l ++ " and " ++ r

/-- `(a - b).total_seconds()` for the values reaching the subtraction
in `asserttimeperiod`: defined for two datetimes and for two plain
dates (whole days times 86400); a mixed pair raises `TypeError`, as
CPython's `datetime`/`date` subtraction does. -/
def pyTimeSub : DateOrDateTime → DateOrDateTime → Except Err Int
  | .datetime a, .datetime b => .ok (toSeconds a - toSeconds b)
  | .date a, .date b =>
    .ok (((toOrdinal a : Int) - (toOrdinal b : Int)) * 86400)
  | .datetime _, .date _ =>
    .error (.typeError (typeErrMsg "datetime.datetime" "datetime.date"))
  | .date _, .datetime _ =>
    .error (.typeError (typeErrMsg "datetime.date" "datetime.datetime"))

/-- The message of the `assert` in `HistoricalAPIBase.assertvalues`. -/
def notAllowedMsg (pfx value : String) (allowed : List String) : String :=
  pfx ++ " Value `" ++ value ++ "` Not in: " ++ toString allowed

/-- `HistoricalAPIBase.assertvalues`: return `value` unchanged when it
is in `allowed`, otherwise the `assert` fails. -/
def assertvalues (pfx value : String) (allowed : List String) :
    Except Err String :=
  if value ∈ allowed then .ok value
  else .error (.assertionError (notAllowedMsg pfx value allowed))

/-- The `shortkey` dictionary of `HistoricalAPIBase.setinterval`, as an
association list in insertion order. -/
def shortkey : List (String × String) :=
  [("1M", "ONE_MINUTE"), ("3M", "THREE_MINUTE"), ("5M", "FIVE_MINUTE"),
   ("10M", "TEN_MINUTE"), ("15M", "FIFTEEN_MINUTE"),
   ("30M", "THIRTY_MINUTE"), ("1H", "ONE_HOUR"), ("1D", "ONE_DAY")]

/-- `list(shortkey.keys()) + list(shortkey.values())`. -/
def allowedIntervals : List String :=
  shortkey.map Prod.fst ++ shortkey.map Prod.snd

/-- `HistoricalAPIBase.setinterval`: assert membership in the combined
key/value list, then return the value unchanged when it is already
canonical (`interval in shortkey.values()`), else look the shorthand up
(`shortkey[interval]`; a missing key would be a `KeyError`). -/
def setinterval (interval : String) : Except Err String :=
  match assertvalues "Interval" interval allowedIntervals with
  | .error e => .error e
  | .ok iv =>
    if iv ∈ shortkey.map Prod.snd then .ok iv
    else
      match shortkey.lookup iv with
      | some c => .ok c
      | none => .error (.keyError iv)

/-- The `maxdaysforinterval` dictionary of
`HistoricalAPIBase.asserttimeperiod`; indexing a missing key is a
`KeyError`. -/
def maxdaysforinterval (interval : String) : Option Nat :=
  match interval with
  | "ONE_MINUTE" => some 30
  | "THREE_MINUTE" => some 60
  | "FIVE_MINUTE" => some 100
  | "TEN_MINUTE" => some 100
  | "FIFTEEN_MINUTE" => some 200
  | "THIRTY_MINUTE" => some 200
  | "ONE_HOUR" => some 400
  | "ONE_DAY" => some 2000
  | _ => none

/-- One boundary block of `asserttimeperiod`: a `dt.date` or
`dt.datetime` is formatted with `strftime` for the return value and
kept (with its own kind) for comparison; a string is kept as the
return value and parsed with `strptime` (always into a datetime) for
comparison; any other shape raises `ValueError errmsg`. -/
def normalizeBoundary (b : Boundary) (errmsg : String) :
    Except Err (String × DateOrDateTime) :=
  match b with
  | .date d => .ok (formatYmdHM d.atMidnight, .date d)
  | .datetime d => .ok (formatYmdHM d, .datetime d)
  | .str s =>
    match parseYmdHM s with
    | some d => .ok (s, .datetime d)
    | none => .error (.valueError ("time data `" ++ s ++
        "` does not match format `%Y-%m-%d %H:%M`"))
  | .other => .error (.valueError errmsg)

/-- `HistoricalAPIBase.asserttimeperiod`, specialised to the single
pattern the library passes (`dtformat = "%Y-%m-%d %H:%M"`): normalize
the from-boundary, then the to-boundary, compute
`(todate - fromdate).total_seconds()` (which raises `TypeError` when
exactly one of the two comparison values is a plain `dt.date`), look
the interval up in `maxdaysforinterval` and assert
`diff <= maxdaysforinterval[interval] * 24 * 60 * 60`; on success
return the two string-formatted values. -/
def asserttimeperiod (fromdate todate : Boundary) (interval : String) :
    Except Err (String × String) :=
  match normalizeBoundary fromdate "From Date is not in Valid Format." with
  | .error e => .error e
  | .ok (retfromdate, fv) =>
    match normalizeBoundary todate "To Date is not in Valid Format." with
    | .error e => .error e
    | .ok (rettodate, tv) =>
      match pyTimeSub tv fv with
      | .error e => .error e
      | .ok diff =>
        match maxdaysforinterval interval with
        | none => .error (.keyError interval)
        | some m =>
          if diff ≤ (m : Int) * 24 * 60 * 60
          then .ok (retfromdate, rettodate)
          else .error (.assertionError
            ("Time Period Exceeds the Limit for " ++ interval))

/-- The request payload built by `GetHistoricalData.makeparams`. -/
structure Params where
  exchange : String
  symboltoken : String
  interval : String
  fromdate : String
  todate : String
deriving DecidableEq, Repr

/-- The shape of the client's response: only its `"data"` field is
consumed by `get`. -/
structure Response where
  data : List (List String)
deriving DecidableEq, Repr

/-- The externally supplied client handle: its `getCandleData` call,
modelled as a pure response function (a stub). -/
structure Client where
  getCandleData : Params → Response

/-- Explicit client state: the number of `getCandleData` invocations. -/
structure ClientState where
  calls : Nat
deriving DecidableEq, Repr

/-- A constructed `GetHistoricalData` fetcher: the instance fields set
by `HistoricalAPIBase.__init__`. -/
structure GetHistoricalData where
  exchange : String
  symboltoken : String
deriving DecidableEq, Repr

/-- `GetHistoricalData.__init__` / `HistoricalAPIBase.__init__`:
validate the exchange against the allow-list and store it, store the
symbol token.  The trailing `assert issubclass(cls, HistoricalAPIBase)`
always passes for `GetHistoricalData` and no client handle is involved
at construction time. -/
def GetHistoricalData.init (exchange symboltoken : String) :
    Except Err GetHistoricalData :=
  match assertvalues "Exchange" exchange
      ["NSE", "NFO", "BSE", "BFO", "MCX", "CDS"] with
  | .error e => .error e
  | .ok ex => .ok ⟨ex, symboltoken⟩

/-- `GetHistoricalData.makeparams`: the payload dictionary from the
instance fields plus the caller-supplied interval and dates. -/
def GetHistoricalData.makeparams (self : GetHistoricalData)
    (interval fromdate todate : String) : Params :=
  ⟨self.exchange, self.symboltoken, interval, fromdate, todate⟩

/-- `GetHistoricalData.get`: normalize the interval, validate the time
period (with the fixed pattern `"%Y-%m-%d %H:%M"`), then invoke
`client.getCandleData` on the `makeparams` payload exactly once and
return its `"data"` field coerced by `rdtype` with `rdtypekwargs`
forwarded (the default `rdtype = list` is the identity coercion).
Validation failures propagate before the client is touched; the client
state counts the invocations and the (unmutated) instance is returned
alongside. -/
def GetHistoricalData.get {ρ α : Type} (self : GetHistoricalData)
    (interval : String) (fromdate todate : Boundary)
    (client : Client) (st : ClientState)
    (rdtype : List (List String) → ρ → α) (rdtypekwargs : ρ) :
    Except Err α × GetHistoricalData × ClientState :=
  match setinterval interval with
  | .error e => (.error e, self, st)
  | .ok ivl =>
    match asserttimeperiod fromdate todate ivl with
    | .error e => (.error e, self, st)
    | .ok (fd, td) =>
      let resp := client.getCandleData (self.makeparams ivl fd td)
      (.ok (rdtype resp.data rdtypekwargs), self, ⟨st.calls + 1⟩)

/-- The comparison value `asserttimeperiod` derives from a boundary:
the date or datetime itself, or the parse of the string (a datetime);
`none` for an invalid shape or an unparseable string (a well-formed
input is one for which this is `some`). -/
def boundaryVal : Boundary → Option DateOrDateTime
  | .date d => some (.date d)
  | .datetime d => some (.datetime d)
  | .str s => (parseYmdHM s).map .datetime
  | .other => none

/-- The return value `asserttimeperiod` produces for a boundary: the
`strftime` of a date or datetime, or the original string unchanged. -/
def retString : Boundary → Option String
  | .date d => some (formatYmdHM d.atMidnight)
  | .datetime d => some (formatYmdHM d)
  | .str s => some s
  | .other => none

/-- The candle row of the spec's end-to-end scenario. -/
def stubRow : List String :=
  ["2025-01-10T15:00:00+05:30", "23410.85", "23418.9", "23402.95",
   "23404.25", "0"]

/-- A stub client whose `getCandleData` always returns the single
candle row of the end-to-end scenario. -/
def stubClient : Client := ⟨fun _ => ⟨[stubRow]⟩⟩

/-! ## Helper lemmas -/

theorem normalizeBoundary_ok (b : Boundary) (v : DateOrDateTime)
    (r msg : String)
    (h : boundaryVal b = some v) (hr : retString b = some r) :
    normalizeBoundary b msg = .ok (r, v) := by
  cases b with
  | date d =>
    simp only [boundaryVal, Option.some.injEq] at h
    simp only [retString, Option.some.injEq] at hr
    subst h; subst hr; rfl
  | datetime d =>
    simp only [boundaryVal, Option.some.injEq] at h
    simp only [retString, Option.some.injEq] at hr
    subst h; subst hr; rfl
  | str s =>
    simp only [retString, Option.some.injEq] at hr
    subst hr
    simp only [boundaryVal] at h
    rcases hp : parseYmdHM s with _ | d
    · rw [hp] at h; exact Option.noConfusion h
    · rw [hp] at h
      have hv : DateOrDateTime.datetime d = v := Option.some.inj h
      subst hv
      simp [normalizeBoundary, hp]
  | other => simp [boundaryVal] at h

theorem retString_isSome (b : Boundary) (v : DateOrDateTime)
    (h : boundaryVal b = some v) : ∃ r, retString b = some r := by
  cases b
  · exact ⟨_, rfl⟩
  · exact ⟨_, rfl⟩
  · exact ⟨_, rfl⟩
  · simp [boundaryVal] at h

theorem asserttimeperiod_ok (fb tb : Boundary) (fv tv : DateOrDateTime)
    (fs ts ivl : String) (diff : Int) (m : Nat)
    (hf : boundaryVal fb = some fv) (hrf : retString fb = some fs)
    (ht : boundaryVal tb = some tv) (hrt : retString tb = some ts)
    (hsub : pyTimeSub tv fv = .ok diff)
    (hm : maxdaysforinterval ivl = some m)
    (hle : diff ≤ (m : Int) * 24 * 60 * 60) :
    asserttimeperiod fb tb ivl = .ok (fs, ts) := by
  simp only [asserttimeperiod, normalizeBoundary_ok fb fv fs _ hf hrf,
    normalizeBoundary_ok tb tv ts _ ht hrt, hsub, hm, if_pos hle]

theorem asserttimeperiod_sub_err (fb tb : Boundary)
    (fv tv : DateOrDateTime) (fs ts ivl : String) (e : Err)
    (hf : boundaryVal fb = some fv) (hrf : retString fb = some fs)
    (ht : boundaryVal tb = some tv) (hrt : retString tb = some ts)
    (hsub : pyTimeSub tv fv = .error e) :
    asserttimeperiod fb tb ivl = .error e := by
  simp only [asserttimeperiod, normalizeBoundary_ok fb fv fs _ hf hrf,
    normalizeBoundary_ok tb tv ts _ ht hrt, hsub]

theorem asserttimeperiod_err (fb tb : Boundary) (fv tv : DateOrDateTime)
    (fs ts ivl : String) (diff : Int) (m : Nat)
    (hf : boundaryVal fb = some fv) (hrf : retString fb = some fs)
    (ht : boundaryVal tb = some tv) (hrt : retString tb = some ts)
    (hsub : pyTimeSub tv fv = .ok diff)
    (hm : maxdaysforinterval ivl = some m)
    (hn : ¬ diff ≤ (m : Int) * 24 * 60 * 60) :
    asserttimeperiod fb tb ivl =
      .error (.assertionError ("Time Period Exceeds the Limit for " ++ ivl)) := by
  simp only [asserttimeperiod, normalizeBoundary_ok fb fv fs _ hf hrf,
    normalizeBoundary_ok tb tv ts _ ht hrt, hsub, hm, if_neg hn]

theorem setinterval_not_allowed (t : String) (h : t ∉ allowedIntervals) :
    setinterval t =
      .error (.assertionError (notAllowedMsg "Interval" t allowedIntervals)) := by
  unfold setinterval assertvalues
  rw [if_neg h]

theorem charToDigit_digitChar (k : Nat) (h : k < 10) :
    charToDigit (digitChar k) = some k := by
  interval_cases k <;> rfl

theorem digits2_digitChar (a b : Nat) (ha : a < 10) (hb : b < 10) :
    digits2 (digitChar a) (digitChar b) = some (a * 10 + b) := by
  rw [digits2, charToDigit_digitChar a ha, charToDigit_digitChar b hb]
  rfl

theorem digits4_digitChar (a b c d : Nat) (ha : a < 10) (hb : b < 10)
    (hc : c < 10) (hd : d < 10) :
    digits4 (digitChar a) (digitChar b) (digitChar c) (digitChar d) =
      some ((a * 10 + b) * 100 + (c * 10 + d)) := by
  rw [digits4, digits2_digitChar a b ha hb, digits2_digitChar c d hc hd]
  rfl

theorem yearChars_pad4 (y : Nat) (h1 : 1000 ≤ y) :
    yearChars y = [digitChar (y / 1000 % 10), digitChar (y / 100 % 10),
      digitChar (y / 10 % 10), digitChar (y % 10)] := by
  unfold yearChars
  rw [if_neg (by omega), if_neg (by omega), if_neg (by omega)]

/-! ## Claim theorems -/

/-- C2: `setinterval` maps each shorthand token to its canonical form,
returns each canonical token unchanged, and fails with the
value-not-allowed assertion (the spec's `ConfigurationError`) on every
other string; normalizing either member of a shorthand/canonical pair
yields the same canonical result. -/
theorem setinterval_normalization :
    (∀ p ∈ shortkey,
      setinterval p.1 = .ok p.2 ∧ setinterval p.2 = .ok p.2) ∧
    (∀ t : String, t ∉ allowedIntervals →
      setinterval t =
        .error (.assertionError (notAllowedMsg "Interval" t allowedIntervals))) := by
  refine ⟨by decide, ?_⟩
  intro t ht
  unfold setinterval assertvalues
  rw [if_neg ht]

theorem setinterval_normalization_witness :
    setinterval "1M" = .ok "ONE_MINUTE" ∧
    setinterval "XYZ" =
      .error (.assertionError (notAllowedMsg "Interval" "XYZ" allowedIntervals)) :=
  ⟨(setinterval_normalization.1 ("1M", "ONE_MINUTE") (by decide)).1,
   setinterval_normalization.2 "XYZ" (by decide)⟩

/-- C10: interval normalization is idempotent — every accepted token
maps to one of the eight canonical tokens, and every canonical token is
a fixed point of `setinterval`. -/
theorem setinterval_idempotent (t c : String)
    (h : setinterval t = Except.ok c) :
    c ∈ shortkey.map Prod.snd ∧ setinterval c = Except.ok c := by
  have ht : t ∈ allowedIntervals := by
    by_contra hn
    rw [setinterval_not_allowed t hn] at h
    exact Except.noConfusion h
  have key : ∀ x ∈ allowedIntervals,
      ((setinterval x).toOption.map fun r =>
        decide (r ∈ shortkey.map Prod.snd ∧ setinterval r = Except.ok r)) =
        some true := by decide
  have k := key t ht
  rw [h] at k
  exact of_decide_eq_true (Option.some.inj k)

theorem setinterval_idempotent_witness :
    "ONE_MINUTE" ∈ shortkey.map Prod.snd ∧
    setinterval "ONE_MINUTE" = Except.ok "ONE_MINUTE" :=
  setinterval_idempotent "1M" "ONE_MINUTE" (by decide)

/-- C3: constructing a fetcher succeeds, storing the exchange code
unchanged, exactly when the exchange is in the allow-list
`{NSE, NFO, BSE, BFO, MCX, CDS}`; any other string fails immediately
with the value-not-allowed assertion (the spec's `ConfigurationError`).
Construction involves no client handle at all, so a stub client's call
counter is untouched. -/
theorem init_exchange_allowlist (ex tok : String) :
    (ex ∈ ["NSE", "NFO", "BSE", "BFO", "MCX", "CDS"] →
      GetHistoricalData.init ex tok = .ok ⟨ex, tok⟩) ∧
    (ex ∉ ["NSE", "NFO", "BSE", "BFO", "MCX", "CDS"] →
      GetHistoricalData.init ex tok =
        .error (.assertionError
          (notAllowedMsg "Exchange" ex ["NSE", "NFO", "BSE", "BFO", "MCX", "CDS"]))) := by
  constructor <;> intro h <;> unfold GetHistoricalData.init assertvalues
  · rw [if_pos h]
  · rw [if_neg h]

theorem init_exchange_allowlist_witness :
    GetHistoricalData.init "NSE" "99926000" = .ok ⟨"NSE", "99926000"⟩ ∧
    GetHistoricalData.init "XYZ" "99926000" =
      .error (.assertionError
        (notAllowedMsg "Exchange" "XYZ" ["NSE", "NFO", "BSE", "BFO", "MCX", "CDS"])) :=
  ⟨(init_exchange_allowlist "NSE" "99926000").1 (by decide),
   (init_exchange_allowlist "XYZ" "99926000").2 (by decide)⟩

/-- C1 (amended): for well-formed boundaries whose comparison values
are subtractable — both plain dates, or both datetimes (a string
parses to a datetime) — and a known interval, `asserttimeperiod`
accepts exactly when the elapsed seconds (to minus from) do not exceed
`maxdaysforinterval interval` days worth of seconds; the mapping is
30/60/100/100/200/200/400/2000 days for the eight canonical intervals
and rejection is the range-too-large assertion, raised with no client
involved.  A pair mixing a plain date with a datetime instead raises
`TypeError` at the subtraction (see the counterexample). -/
theorem asserttimeperiod_span_iff (fb tb : Boundary)
    (fv tv : DateOrDateTime) (diff : Int) (ivl : String) (m : Nat)
    (hf : boundaryVal fb = some fv) (ht : boundaryVal tb = some tv)
    (hsub : pyTimeSub tv fv = .ok diff)
    (hm : maxdaysforinterval ivl = some m) :
    (asserttimeperiod fb tb ivl).isOk = true ↔
      diff ≤ (m : Int) * 24 * 60 * 60 := by
  obtain ⟨fs, hrf⟩ := retString_isSome fb fv hf
  obtain ⟨ts, hrt⟩ := retString_isSome tb tv ht
  constructor
  · intro hOk
    by_contra hn
    rw [asserttimeperiod_err fb tb fv tv fs ts ivl diff m
      hf hrf ht hrt hsub hm hn] at hOk
    simp [Except.isOk, Except.toBool] at hOk
  · intro hle
    rw [asserttimeperiod_ok fb tb fv tv fs ts ivl diff m
      hf hrf ht hrt hsub hm hle]
    rfl

/-- C1 counterexample: a well-formed pair mixing a plain `dt.date`
from-boundary with a string to-boundary (parsed to a datetime) is
rejected by the `TypeError` of the subtraction even though the elapsed
time is far below the ONE_DAY limit, so the claimed "accepts iff the
span is within the limit" is false of the program as stated. -/
theorem asserttimeperiod_span_iff_cex :
    asserttimeperiod (.date ⟨2025, 1, 10⟩) (.str "2025-01-10 15:30")
      "ONE_DAY" =
      .error (.typeError (typeErrMsg "datetime.datetime" "datetime.date")) ∧
    toSeconds ⟨2025, 1, 10, 15, 30, 0⟩ - toSeconds ⟨2025, 1, 10, 0, 0, 0⟩ ≤
      (2000 : Int) * 24 * 60 * 60 :=
  ⟨by decide, by decide⟩

theorem asserttimeperiod_span_iff_witness :
    ((asserttimeperiod (.datetime ⟨2020, 1, 1, 0, 0, 0⟩)
        (.datetime ⟨2025, 6, 23, 0, 0, 0⟩) "ONE_DAY").isOk = true) ∧
    ((asserttimeperiod (.datetime ⟨2020, 1, 1, 0, 0, 0⟩)
        (.datetime ⟨2025, 6, 23, 0, 0, 1⟩) "ONE_DAY").isOk = false) := by
  constructor
  · exact (asserttimeperiod_span_iff (.datetime ⟨2020, 1, 1, 0, 0, 0⟩)
      (.datetime ⟨2025, 6, 23, 0, 0, 0⟩)
      (.datetime ⟨2020, 1, 1, 0, 0, 0⟩) (.datetime ⟨2025, 6, 23, 0, 0, 0⟩)
      (toSeconds ⟨2025, 6, 23, 0, 0, 0⟩ - toSeconds ⟨2020, 1, 1, 0, 0, 0⟩)
      "ONE_DAY" 2000 rfl rfl rfl rfl).mpr (by decide)
  · have h := asserttimeperiod_span_iff (.datetime ⟨2020, 1, 1, 0, 0, 0⟩)
      (.datetime ⟨2025, 6, 23, 0, 0, 1⟩)
      (.datetime ⟨2020, 1, 1, 0, 0, 0⟩) (.datetime ⟨2025, 6, 23, 0, 0, 1⟩)
      (toSeconds ⟨2025, 6, 23, 0, 0, 1⟩ - toSeconds ⟨2020, 1, 1, 0, 0, 0⟩)
      "ONE_DAY" 2000 rfl rfl rfl rfl
    rcases hb : (asserttimeperiod (.datetime ⟨2020, 1, 1, 0, 0, 0⟩)
        (.datetime ⟨2025, 6, 23, 0, 0, 1⟩) "ONE_DAY").isOk with _ | _
    · rfl
    · exact absurd (h.mp hb) (by decide)

/-- C4 (amended): a date/time boundary is returned as its `strftime`
string and a string boundary is passed through unchanged, while a
boundary of any other shape raises `ValueError` (the from-boundary
being checked first); when the span check passes the pair of string
values is returned for every combination whose comparison values are
subtractable — datetime/datetime, datetime/string, string/datetime,
string/string, and date/date — whereas a combination mixing a plain
`dt.date` with a datetime or a parsed string raises `TypeError` at the
subtraction instead of returning (see the counterexample). -/
theorem asserttimeperiod_shapes :
    (∀ (fd td : PyDateTime) (ivl : String) (m : Nat),
      maxdaysforinterval ivl = some m →
      toSeconds td - toSeconds fd ≤ (m : Int) * 24 * 60 * 60 →
      asserttimeperiod (.datetime fd) (.datetime td) ivl =
        .ok (formatYmdHM fd, formatYmdHM td)) ∧
    (∀ (fd td : PyDateTime) (s ivl : String) (m : Nat),
      parseYmdHM s = some td → maxdaysforinterval ivl = some m →
      toSeconds td - toSeconds fd ≤ (m : Int) * 24 * 60 * 60 →
      asserttimeperiod (.datetime fd) (.str s) ivl =
        .ok (formatYmdHM fd, s)) ∧
    (∀ (fd td : PyDateTime) (s ivl : String) (m : Nat),
      parseYmdHM s = some fd → maxdaysforinterval ivl = some m →
      toSeconds td - toSeconds fd ≤ (m : Int) * 24 * 60 * 60 →
      asserttimeperiod (.str s) (.datetime td) ivl =
        .ok (s, formatYmdHM td)) ∧
    (∀ (fd td : PyDateTime) (s1 s2 ivl : String) (m : Nat),
      parseYmdHM s1 = some fd → parseYmdHM s2 = some td →
      maxdaysforinterval ivl = some m →
      toSeconds td - toSeconds fd ≤ (m : Int) * 24 * 60 * 60 →
      asserttimeperiod (.str s1) (.str s2) ivl = .ok (s1, s2)) ∧
    (∀ (fd td : PyDate) (ivl : String) (m : Nat),
      maxdaysforinterval ivl = some m →
      ((toOrdinal td : Int) - (toOrdinal fd : Int)) * 86400 ≤
        (m : Int) * 24 * 60 * 60 →
      asserttimeperiod (.date fd) (.date td) ivl =
        .ok (formatYmdHM fd.atMidnight, formatYmdHM td.atMidnight)) ∧
    (∀ (fd : PyDate) (tb : Boundary) (td : PyDateTime) (ivl : String),
      boundaryVal tb = some (.datetime td) →
      asserttimeperiod (.date fd) tb ivl =
        .error (.typeError (typeErrMsg "datetime.datetime" "datetime.date"))) ∧
    (∀ (fb : Boundary) (fd : PyDateTime) (td : PyDate) (ivl : String),
      boundaryVal fb = some (.datetime fd) →
      asserttimeperiod fb (.date td) ivl =
        .error (.typeError (typeErrMsg "datetime.date" "datetime.datetime"))) ∧
    (∀ (tb : Boundary) (ivl : String),
      asserttimeperiod .other tb ivl =
        .error (.valueError "From Date is not in Valid Format.")) ∧
    (∀ (fb : Boundary) (v : DateOrDateTime) (ivl : String),
      boundaryVal fb = some v →
      asserttimeperiod fb .other ivl =
        .error (.valueError "To Date is not in Valid Format.")) := by
  refine ⟨?_, ?_, ?_, ?_, ?_, ?_, ?_, ?_, ?_⟩
  · intro fd td ivl m hm hle
    exact asserttimeperiod_ok _ _ (.datetime fd) (.datetime td) _ _ ivl _ m
      rfl rfl rfl rfl rfl hm hle
  · intro fd td s ivl m hs hm hle
    exact asserttimeperiod_ok _ _ (.datetime fd) (.datetime td) _ _ ivl _ m
      rfl rfl (by simp [boundaryVal, hs]) rfl rfl hm hle
  · intro fd td s ivl m hs hm hle
    exact asserttimeperiod_ok _ _ (.datetime fd) (.datetime td) _ _ ivl _ m
      (by simp [boundaryVal, hs]) rfl rfl rfl rfl hm hle
  · intro fd td s1 s2 ivl m h1 h2 hm hle
    exact asserttimeperiod_ok _ _ (.datetime fd) (.datetime td) _ _ ivl _ m
      (by simp [boundaryVal, h1]) rfl (by simp [boundaryVal, h2]) rfl
      rfl hm hle
  · intro fd td ivl m hm hle
    exact asserttimeperiod_ok _ _ (.date fd) (.date td) _ _ ivl _ m
      rfl rfl rfl rfl rfl hm hle
  · intro fd tb td ivl ht
    obtain ⟨ts, hrt⟩ := retString_isSome tb (.datetime td) ht
    exact asserttimeperiod_sub_err _ _ (.date fd) (.datetime td) _ ts ivl _
      rfl rfl ht hrt rfl
  · intro fb fd td ivl hf
    obtain ⟨fs, hrf⟩ := retString_isSome fb (.datetime fd) hf
    exact asserttimeperiod_sub_err _ _ (.datetime fd) (.date td) fs _ ivl _
      hf hrf rfl rfl rfl
  · intro tb ivl
    rfl
  · intro fb v ivl hf
    obtain ⟨fs, hrf⟩ := retString_isSome fb v hf
    simp only [asserttimeperiod, normalizeBoundary_ok fb v fs _ hf hrf]
    rfl

/-- C4 counterexample: a datetime from-boundary with a plain `dt.date`
to-boundary — both valid shapes, with a span of only nine hours —
raises `TypeError` at the subtraction instead of returning the two
formatted values, so the claim as stated fails for this combination of
the two valid shapes. -/
theorem asserttimeperiod_shapes_cex :
    asserttimeperiod (.datetime ⟨2025, 1, 10, 15, 0, 0⟩)
      (.date ⟨2025, 1, 11⟩) "ONE_MINUTE" =
      .error (.typeError (typeErrMsg "datetime.date" "datetime.datetime")) ∧
    toSeconds ⟨2025, 1, 11, 0, 0, 0⟩ - toSeconds ⟨2025, 1, 10, 15, 0, 0⟩ ≤
      (30 : Int) * 24 * 60 * 60 :=
  ⟨by decide, by decide⟩

theorem asserttimeperiod_shapes_witness :
    asserttimeperiod (.datetime ⟨2025, 1, 10, 15, 0, 0⟩)
      (.str "2025-01-10 15:30") "ONE_MINUTE" =
      .ok ("2025-01-10 15:00", "2025-01-10 15:30") := by
  have h := asserttimeperiod_shapes.2.1 ⟨2025, 1, 10, 15, 0, 0⟩
    ⟨2025, 1, 10, 15, 30, 0⟩ "2025-01-10 15:30" "ONE_MINUTE" 30
    (by decide) rfl (by decide)
  exact h.trans (by decide)

/-- C5 (amended): the span check does not verify that the to-boundary
follows the from-boundary — for every pair of well-formed boundaries
with subtractable comparison values (both dates or both datetimes)
whose span is strictly negative, the check trivially passes and
`asserttimeperiod` returns the two formatted values.  A reversed pair
mixing a plain date with a datetime instead raises `TypeError` at the
subtraction (see the counterexample). -/
theorem asserttimeperiod_negative_span (fb tb : Boundary)
    (fv tv : DateOrDateTime) (fs ts ivl : String) (diff : Int) (m : Nat)
    (hf : boundaryVal fb = some fv) (hrf : retString fb = some fs)
    (ht : boundaryVal tb = some tv) (hrt : retString tb = some ts)
    (hsub : pyTimeSub tv fv = .ok diff) (hneg : diff < 0)
    (hm : maxdaysforinterval ivl = some m) :
    asserttimeperiod fb tb ivl = .ok (fs, ts) := by
  apply asserttimeperiod_ok fb tb fv tv fs ts ivl diff m
    hf hrf ht hrt hsub hm
  have hnn : (0 : Int) ≤ (m : Int) * 24 * 60 * 60 := by positivity
  omega

/-- C5 counterexample: a well-formed reversed pair — a string
from-boundary at 15:30 and a plain `dt.date` to-boundary at the
earlier midnight of the same day — raises `TypeError` at the
subtraction instead of passing the check and returning the formatted
values, so the claim as stated fails for this reversed pair. -/
theorem asserttimeperiod_negative_span_cex :
    asserttimeperiod (.str "2025-01-10 15:30") (.date ⟨2025, 1, 10⟩)
      "ONE_MINUTE" =
      .error (.typeError (typeErrMsg "datetime.date" "datetime.datetime")) ∧
    toSeconds ⟨2025, 1, 10, 0, 0, 0⟩ < toSeconds ⟨2025, 1, 10, 15, 30, 0⟩ :=
  ⟨by decide, by decide⟩

theorem asserttimeperiod_negative_span_witness :
    asserttimeperiod (.str "2025-01-10 15:30") (.str "2025-01-10 15:00")
      "ONE_MINUTE" = .ok ("2025-01-10 15:30", "2025-01-10 15:00") :=
  asserttimeperiod_negative_span (.str "2025-01-10 15:30")
    (.str "2025-01-10 15:00") (.datetime ⟨2025, 1, 10, 15, 30, 0⟩)
    (.datetime ⟨2025, 1, 10, 15, 0, 0⟩) "2025-01-10 15:30"
    "2025-01-10 15:00" "ONE_MINUTE" (-1800) 30 (by decide) rfl
    (by decide) rfl (by decide) (by decide) rfl

/-- C6: in `get`, interval normalization and date-range validation run
before the client is used — on any validation failure `getCandleData`
is never invoked (the call counter is unchanged), and on success it is
invoked exactly once (the counter advances by exactly one), with no
retry. -/
theorem get_client_calls {ρ α : Type} (self : GetHistoricalData)
    (interval : String) (fb tb : Boundary) (client : Client)
    (st : ClientState) (rdtype : List (List String) → ρ → α) (kw : ρ) :
    ((GetHistoricalData.get self interval fb tb client st rdtype kw).1.isOk
        = true →
      ((GetHistoricalData.get self interval fb tb client st rdtype kw).2.2).calls
        = st.calls + 1) ∧
    ((GetHistoricalData.get self interval fb tb client st rdtype kw).1.isOk
        = false →
      ((GetHistoricalData.get self interval fb tb client st rdtype kw).2.2).calls
        = st.calls) := by
  rcases hi : setinterval interval with e | ivl
  · simp [GetHistoricalData.get, hi, Except.isOk, Except.toBool]
  · rcases hp : asserttimeperiod fb tb ivl with e | ⟨fs, ts⟩
    · simp [GetHistoricalData.get, hi, hp, Except.isOk, Except.toBool]
    · simp [GetHistoricalData.get, hi, hp, Except.isOk, Except.toBool]

theorem get_client_calls_witness :
    ((GetHistoricalData.get ⟨"NSE", "99926000"⟩ "1M"
      (.str "2025-01-10 15:00") (.str "2025-01-10 15:30") stubClient ⟨0⟩
      (fun d _ => d) ()).2.2).calls = 1 := by
  have h := (get_client_calls ⟨"NSE", "99926000"⟩ "1M"
    (.str "2025-01-10 15:00") (.str "2025-01-10 15:30") stubClient ⟨0⟩
    (fun d _ => d) ()).1 (by decide)
  simpa using h

/-- C7: `get` builds exactly the payload
`{exchange, symboltoken, interval, fromdate, todate}` from the
instance fixed at construction plus the normalized interval and dates,
passes it to `client.getCandleData`, and returns the response's `data`
field coerced by `rdtype` with `rdtypekwargs` forwarded (the default
`list` coercion being the identity on the row sequence). -/
theorem get_builds_payload {ρ α : Type} (self : GetHistoricalData)
    (interval ivl : String) (fb tb : Boundary) (fs ts : String)
    (client : Client) (st : ClientState)
    (rdtype : List (List String) → ρ → α) (kw : ρ)
    (hi : setinterval interval = .ok ivl)
    (hp : asserttimeperiod fb tb ivl = .ok (fs, ts)) :
    GetHistoricalData.get self interval fb tb client st rdtype kw =
      (.ok (rdtype (client.getCandleData
          (self.makeparams ivl fs ts)).data kw), self, ⟨st.calls + 1⟩) := by
  simp only [GetHistoricalData.get, hi, hp]

theorem get_builds_payload_witness :
    GetHistoricalData.get ⟨"NSE", "99926000"⟩ "1M"
      (.str "2025-01-10 15:00") (.str "2025-01-10 15:30") stubClient ⟨0⟩
      (fun d _ => d) () =
      (.ok [["2025-01-10T15:00:00+05:30", "23410.85", "23418.9",
             "23402.95", "23404.25", "0"]], ⟨"NSE", "99926000"⟩, ⟨1⟩) := by
  have h := get_builds_payload ⟨"NSE", "99926000"⟩ "1M" "ONE_MINUTE"
    (.str "2025-01-10 15:00") (.str "2025-01-10 15:30")
    "2025-01-10 15:00" "2025-01-10 15:30" stubClient ⟨0⟩
    (fun d _ => d) () (by decide) (by decide)
  exact h.trans (by decide)

/-- C9: a fetcher's `exchange` and `symboltoken` are fixed at
construction and never modified afterwards — every `makeparams` payload
carries exactly the constructed values, and `get` returns the instance
unchanged. -/
theorem fetcher_immutable (ex tok : String) (self : GetHistoricalData)
    (h : GetHistoricalData.init ex tok = .ok self) :
    self.exchange = ex ∧ self.symboltoken = tok ∧
    (∀ i f t : String, (self.makeparams i f t).exchange = ex ∧
      (self.makeparams i f t).symboltoken = tok) ∧
    (∀ {ρ α : Type} (i : String) (fb tb : Boundary) (c : Client)
      (st : ClientState) (rdtype : List (List String) → ρ → α) (kw : ρ),
      (GetHistoricalData.get self i fb tb c st rdtype kw).2.1 = self) := by
  have hself : self = ⟨ex, tok⟩ := by
    by_cases hm : ex ∈ ["NSE", "NFO", "BSE", "BFO", "MCX", "CDS"]
    · unfold GetHistoricalData.init assertvalues at h
      rw [if_pos hm] at h
      exact (Except.ok.inj h).symm
    · unfold GetHistoricalData.init assertvalues at h
      rw [if_neg hm] at h
      exact Except.noConfusion h
  subst hself
  refine ⟨rfl, rfl, fun i f t => ⟨rfl, rfl⟩, ?_⟩
  intro ρ α i fb tb c st rdtype kw
  rcases hi : setinterval i with e | ivl
  · simp [GetHistoricalData.get, hi]
  · rcases hp : asserttimeperiod fb tb ivl with e | ⟨fs, ts⟩
    · simp [GetHistoricalData.get, hi, hp]
    · simp [GetHistoricalData.get, hi, hp]

theorem fetcher_immutable_witness :
    (GetHistoricalData.get ⟨"NSE", "99926000"⟩ "1M"
      (.str "2025-01-10 15:00") (.str "2025-01-10 15:30") stubClient ⟨0⟩
      (fun d _ => d) ()).2.1 = ⟨"NSE", "99926000"⟩ :=
  (fetcher_immutable "NSE" "99926000" ⟨"NSE", "99926000"⟩ (by decide)).2.2.2
    "1M" (.str "2025-01-10 15:00") (.str "2025-01-10 15:30") stubClient ⟨0⟩
    (fun d _ => d) ()

/-- C8 (amended): for every valid date/time value whose year is at
least 1000, re-parsing its `"%Y-%m-%d %H:%M"` rendering with the same
pattern yields the value truncated to the pattern's precision (seconds
dropped to zero).  For years below 1000 `strftime` renders `%Y`
without padding and `strptime`, which requires exactly four year
digits, rejects the rendering (see the counterexample). -/
theorem format_parse_roundtrip (d : PyDateTime) (h : d.Valid)
    (hy : 1000 ≤ d.year) :
    parseYmdHM (formatYmdHM d) =
      some ⟨d.year, d.month, d.day, d.hour, d.minute, 0⟩ := by
  obtain ⟨h1, h2, h3, h4, h5, h6, h7, h8, h9⟩ := h
  have hfmt : formatYmdHM d =
      ⟨[digitChar (d.year / 1000 % 10), digitChar (d.year / 100 % 10),
        digitChar (d.year / 10 % 10), digitChar (d.year % 10), '-',
        digitChar (d.month / 10 % 10), digitChar (d.month % 10), '-',
        digitChar (d.day / 10 % 10), digitChar (d.day % 10), ' ',
        digitChar (d.hour / 10 % 10), digitChar (d.hour % 10), ':',
        digitChar (d.minute / 10 % 10), digitChar (d.minute % 10)]⟩ := by
    unfold formatYmdHM
    rw [yearChars_pad4 d.year hy]
    rfl
  rw [hfmt]
  have e1 : parseYmdHM
      ⟨[digitChar (d.year / 1000 % 10), digitChar (d.year / 100 % 10),
        digitChar (d.year / 10 % 10), digitChar (d.year % 10), '-',
        digitChar (d.month / 10 % 10), digitChar (d.month % 10), '-',
        digitChar (d.day / 10 % 10), digitChar (d.day % 10), ' ',
        digitChar (d.hour / 10 % 10), digitChar (d.hour % 10), ':',
        digitChar (d.minute / 10 % 10), digitChar (d.minute % 10)]⟩ =
      parseFields (digitChar (d.year / 1000 % 10))
        (digitChar (d.year / 100 % 10)) (digitChar (d.year / 10 % 10))
        (digitChar (d.year % 10)) '-' (digitChar (d.month / 10 % 10))
        (digitChar (d.month % 10)) '-' (digitChar (d.day / 10 % 10))
        (digitChar (d.day % 10)) ' ' (digitChar (d.hour / 10 % 10))
        (digitChar (d.hour % 10)) ':' (digitChar (d.minute / 10 % 10))
        (digitChar (d.minute % 10)) := rfl
  rw [e1]
  unfold parseFields
  rw [if_pos ⟨rfl, rfl, rfl, rfl⟩]
  rw [digits4_digitChar _ _ _ _ (Nat.mod_lt _ (by norm_num))
        (Nat.mod_lt _ (by norm_num)) (Nat.mod_lt _ (by norm_num))
        (Nat.mod_lt _ (by norm_num)),
      digits2_digitChar _ _ (Nat.mod_lt _ (by norm_num))
        (Nat.mod_lt _ (by norm_num)),
      digits2_digitChar _ _ (Nat.mod_lt _ (by norm_num))
        (Nat.mod_lt _ (by norm_num)),
      digits2_digitChar _ _ (Nat.mod_lt _ (by norm_num))
        (Nat.mod_lt _ (by norm_num)),
      digits2_digitChar _ _ (Nat.mod_lt _ (by norm_num))
        (Nat.mod_lt _ (by norm_num))]
  have hyv : (d.year / 1000 % 10 * 10 + d.year / 100 % 10) * 100 +
      (d.year / 10 % 10 * 10 + d.year % 10) = d.year := by omega
  have hmo : d.month / 10 % 10 * 10 + d.month % 10 = d.month := by omega
  have hda : d.day / 10 % 10 * 10 + d.day % 10 = d.day := by
    have : d.day ≤ 31 := by
      refine h6.trans ?_
      unfold daysInMonth
      split_ifs <;> omega
    omega
  have hho : d.hour / 10 % 10 * 10 + d.hour % 10 = d.hour := by omega
  have hmi : d.minute / 10 % 10 * 10 + d.minute % 10 = d.minute := by omega
  rw [hyv, hmo, hda, hho, hmi]
  exact if_pos ⟨h1, h3, h4, h5, h6, h7, h8⟩

/-- C8 counterexample: the valid datetime for year 999 renders with an
unpadded three-digit year, and re-parsing the rendered string fails
(`strptime` demands four year digits), so the round-trip claimed for
every date/time value fails at this input. -/
theorem format_parse_roundtrip_cex :
    PyDateTime.Valid ⟨999, 1, 10, 15, 0, 0⟩ ∧
    formatYmdHM ⟨999, 1, 10, 15, 0, 0⟩ = "999-01-10 15:00" ∧
    parseYmdHM (formatYmdHM ⟨999, 1, 10, 15, 0, 0⟩) = none :=
  ⟨by decide, by decide, by decide⟩

theorem format_parse_roundtrip_witness :
    parseYmdHM (formatYmdHM ⟨2025, 1, 10, 15, 30, 45⟩) =
      some ⟨2025, 1, 10, 15, 30, 0⟩ :=
  format_parse_roundtrip ⟨2025, 1, 10, 15, 30, 45⟩ (by decide) (by norm_num)
